import Mathlib

/-!
Shallow embedding of the Matching and Swipe Engine of the LIFBackend
repository (a MongoDB/Express dating backend), restricted to the parts the
verified claims are about:

* the ledger-based user controller (src/controllers/userController.js):
  likeProfile, undoLastSwipe, deleteProfile, getProfiles;
* the counter-variant user controller (the second, unnamed copy of
  userController.js in the repository): its getProfiles, which carries the
  mandatory-center check, the boostedUntil sort and the views increment;
* the mongoose models User, Like, Match (plus the Message, Confession and
  SafetyReport shapes deleteProfile filters on).

The store is modelled as explicit lists in insertion order; mongoose calls
become pure list operations: findById and findOne are List.find?, save of a
new document appends, save of an existing document replaces by id,
findOneAndDelete is find? plus List.eraseP, deleteMany is List.filter.
Controller bodies are translated statement by statement; a thrown ApiError
becomes Except.error, and the store state reached at the moment of the
throw is returned alongside it, so mutations performed before a throw stay
visible (as they do in the JavaScript, which has no transactions).
Timestamps are integers of milliseconds (Date.now). Identifiers are Nat.
The geospatial metric of the $near operator is an external capability of
the store and is passed in as a parameter.
-/

namespace LIF

/-- Identifier of a stored document (ObjectId in MongoDB). -/
abbrev Id := Nat

/-- Errors a controller can surface. ApiError carries an HTTP status and a
message, exactly as in utils/apiError.js; refErr models an uncaught
JavaScript ReferenceError on an identifier that is not in module scope;
typeErr models an uncaught TypeError on a null dereference; storeErr
models a rejection by the database driver. -/
inductive JsError where
  | api (status : Nat) (message : String)
  | refErr (name : String)
  | typeErr (message : String)
  | storeErr (message : String)
deriving Repr, DecidableEq

/-- The lastSwipeAction subdocument of the User schema
(src/models/User.js): direction, targetId and timestamp all default to
null, modelled as none. -/
structure LastSwipe where
  direction : Option String
  targetId : Option Id
  timestamp : Option Nat
deriving Repr, DecidableEq

/-- The all-null lastSwipeAction written by a successful undo. -/
def LastSwipe.cleared : LastSwipe := { direction := none, targetId := none, timestamp := none }

/-- A User document (src/models/User.js), keeping the fields the embedded
controllers read or write: identity, the discovery attributes, the
counters and flags, the maybe list and the undo snapshot. The purely
textual account fields (email, password, name, photoURL, bio, prompt,
verification and reset tokens, lastActive, tokenVersion) are never read by
likeProfile, undoLastSwipe, deleteProfile or getProfiles and are elided.
location holds the GeoJSON coordinates pair in the stored order
(longitude, latitude). -/
structure UserDoc where
  id : Id
  location : Int × Int
  age : Nat
  gender : String
  interests : List String
  preferences : String
  ethnicity : Option String
  education : Option String
  smoking : Bool
  views : Nat
  hiatus : Bool
  maybeLikes : List Id
  lastSwipeAction : LastSwipe
  boostedUntil : Option Nat
deriving Repr, DecidableEq

/-- A Like document (src/models/Like.js): the swipe ledger entry. -/
structure LikeDoc where
  liker : Id
  likee : Id
  isSuperLike : Bool
  createdAt : Nat
deriving Repr, DecidableEq

/-- A Match document (src/models/Match.js). -/
structure MatchDoc where
  users : List Id
  createdAt : Nat
deriving Repr, DecidableEq

/-- A Message document, with the two fields deleteProfile filters on. -/
structure MessageDoc where
  sender : Id
  receiver : Id
deriving Repr, DecidableEq

/-- A Confession document, with the field deleteProfile filters on. -/
structure ConfessionDoc where
  sender : Id
deriving Repr, DecidableEq

/-- A SafetyReport document, with the fields deleteProfile filters on. -/
structure SafetyReportDoc where
  userId : Id
  reportedUserId : Id
deriving Repr, DecidableEq

/-- The persistent store: one list per collection, in insertion order, plus
the log of MATCH_CREATED events published on pubsub. -/
structure DB where
  users : List UserDoc
  likes : List LikeDoc
  matchDocs : List MatchDoc
  messages : List MessageDoc
  confessions : List ConfessionDoc
  safetyReports : List SafetyReportDoc
  events : List (Id × Id)
deriving Repr, DecidableEq

/-- User.findById: first document with the given id. -/
def findById (db : DB) (x : Id) : Option UserDoc :=
  db.users.find? (fun u => u.id == x)

/-- Persisting a fetched-and-mutated user document (user.save()):
replace the document with that id. -/
def saveUser (db : DB) (u : UserDoc) : DB :=
  { db with users := db.users.map (fun v => if v.id == u.id then u else v) }

/-- Predicate of Like.findOne({ liker, likee }). -/
def likePred (liker likee : Id) (l : LikeDoc) : Bool :=
  l.liker == liker && l.likee == likee

/-- Predicate of Match.findOne({ users: { all: [a, b] } }). -/
def matchPred (a b : Id) (m : MatchDoc) : Bool :=
  m.users.contains a && m.users.contains b

/-- Result payload of likeProfile, as in its ApiResponse data. -/
inductive LikeResp where
  | matchCreated
  | matchExists
  | liked
  | maybeMarked (target : Id)
deriving Repr, DecidableEq

/-- Embedding of likeProfile (src/controllers/userController.js).
Validation first: direction must be right or up, the actor may not target
itself, the target must exist. For right: duplicate-ledger check, insert
of the ledger entry, lastSwipeAction update, then the reciprocity check
and the idempotent match creation. For up: duplicate-maybe check, push
onto maybeLikes, lastSwipeAction update. now is the value of Date.now()
during the request. If the authenticated liker document is gone, the
JavaScript dereferences null: in the right branch this happens after the
new Like was already saved. -/
def likeProfile (db : DB) (likerId targetId : Id) (direction : String) (now : Nat) :
    Except JsError LikeResp × DB :=
  if ¬(direction = "right" ∨ direction = "up") then
    (Except.error (JsError.api 400 "Invalid direction. Use \"right\" or \"up\""), db)
  else if likerId = targetId then
    (Except.error (JsError.api 400 "Cannot like yourself"), db)
  else
    match findById db targetId with
    | none => (Except.error (JsError.api 404 "Target user not found"), db)
    | some _ =>
      if direction = "right" then
        match db.likes.find? (likePred likerId targetId) with
        | some _ => (Except.error (JsError.api 400 "Already liked this profile"), db)
        | none =>
          let lk : LikeDoc := { liker := likerId, likee := targetId, isSuperLike := false, createdAt := now }
          let db1 : DB := { db with likes := db.likes ++ [lk] }
          match findById db likerId with
          | none => (Except.error (JsError.typeErr "Cannot set properties of null"), db1)
          | some user =>
            let user1 : UserDoc := { user with lastSwipeAction :=
              { direction := some "right", targetId := some targetId, timestamp := some now } }
            let db2 : DB := saveUser db1 user1
            match db2.likes.find? (likePred targetId likerId) with
            | none => (Except.ok LikeResp.liked, db2)
            | some _ =>
              match db2.matchDocs.find? (matchPred likerId targetId) with
              | some _ => (Except.ok LikeResp.matchExists, db2)
              | none =>
                let mt : MatchDoc := { users := [likerId, targetId], createdAt := now }
                let db3 : DB := { db2 with matchDocs := db2.matchDocs ++ [mt],
                                           events := db2.events ++ [(likerId, targetId)] }
                (Except.ok LikeResp.matchCreated, db3)
      else
        match findById db likerId with
        | none => (Except.error (JsError.typeErr "Cannot read properties of null"), db)
        | some user =>
          if targetId ∈ user.maybeLikes then
            (Except.error (JsError.api 400 "Already marked as maybe"), db)
          else
            let user1 : UserDoc := { user with
              maybeLikes := user.maybeLikes ++ [targetId],
              lastSwipeAction :=
                { direction := some "up", targetId := some targetId, timestamp := some now } }
            (Except.ok (LikeResp.maybeMarked targetId), saveUser db user1)

/-- The undo window of undoLastSwipe: 24 * 60 * 60 * 1000 milliseconds. -/
def undoWindowMs : Nat := 24 * 60 * 60 * 1000

/-- Embedding of undoLastSwipe (src/controllers/userController.js).
The destructured lastSwipeAction fields are truthiness-checked (all three
are null exactly when cleared); then the 24-hour window check compares
Date.now() minus the stored timestamp against the window (Nat subtraction
agrees with the JavaScript comparison: a swipe recorded in the future is
not expired either way). For right the ledger entry is deleted via
findOneAndDelete and its absence throws; for up the target is filtered
out of maybeLikes. On success lastSwipeAction is cleared and saved, and
the undone target document is returned. -/
def undoLastSwipe (db : DB) (userId : Id) (now : Nat) :
    Except JsError (Option UserDoc) × DB :=
  match findById db userId with
  | none => (Except.error (JsError.api 404 "User not found"), db)
  | some user =>
    match user.lastSwipeAction.direction, user.lastSwipeAction.targetId,
          user.lastSwipeAction.timestamp with
    | some dir, some tgt, some ts =>
      if now - ts > undoWindowMs then
        (Except.error (JsError.api 400 "Undo period expired (24 hours)"), db)
      else if dir = "right" then
        match db.likes.find? (likePred userId tgt) with
        | none => (Except.error (JsError.api 400 "Like not found to undo"), db)
        | some _ =>
          let db1 : DB := { db with likes := db.likes.eraseP (likePred userId tgt) }
          let user1 : UserDoc := { user with lastSwipeAction := LastSwipe.cleared }
          let db2 : DB := saveUser db1 user1
          (Except.ok (findById db2 tgt), db2)
      else if dir = "up" then
        let user1 : UserDoc := { user with
          maybeLikes := user.maybeLikes.filter (fun i => i != tgt),
          lastSwipeAction := LastSwipe.cleared }
        let db2 : DB := saveUser db user1
        (Except.ok (findById db2 tgt), db2)
      else
        let user1 : UserDoc := { user with lastSwipeAction := LastSwipe.cleared }
        let db2 : DB := saveUser db user1
        (Except.ok (findById db2 tgt), db2)
    | _, _, _ => (Except.error (JsError.api 400 "No recent swipe to undo"), db)

/-- Embedding of deleteProfile (src/controllers/userController.js). The
module imports User, Match, Message, Like, winston, ApiError, ApiResponse,
asyncHandler and pubsub from lib.js and nothing else; lib.js does export
Confession and SafetyReport, but this controller never imports them, so
evaluating Confession.deleteMany throws an uncaught ReferenceError after
the message, match and like cascades already ran, and before the
SafetyReport cascade, the maybeLikes pull and the User.deleteOne. -/
def deleteProfile (db : DB) (userId : Id) : Except JsError Unit × DB :=
  match findById db userId with
  | none => (Except.error (JsError.api 404 "User not found"), db)
  | some _ =>
    let db1 : DB := { db with
      messages := db.messages.filter (fun m => !(m.sender == userId || m.receiver == userId)) }
    let db2 : DB := { db1 with
      matchDocs := db1.matchDocs.filter (fun m => !(m.users.contains userId)) }
    let db3 : DB := { db2 with
      likes := db2.likes.filter (fun l => !(l.liker == userId || l.likee == userId)) }
    (Except.error (JsError.refErr "Confession"), db3)

/-- The req.query of a getProfiles request. Absent parameters are none; the
numeric parameters are kept already parsed (the JavaScript applies
parseFloat and parseInt to them, and the mandatory-center truthiness check
only distinguishes present from absent). interests stays the raw
comma-separated string, split at use as in the code. -/
structure FilterQuery where
  lat : Option Int
  lng : Option Int
  maxDistance : Option Nat
  minAge : Option Nat
  maxAge : Option Nat
  gender : Option String
  interests : Option String
  preferences : Option String
  ethnicity : Option String
  education : Option String
  smoking : Option String
deriving Repr, DecidableEq

/-- A geospatial metric, in meters, between two stored coordinate pairs:
the nearest-within-radius capability of the store, external to the engine. -/
abbrev GeoDist := (Int × Int) → (Int × Int) → Nat

/-- Stable insertion of an element into a list: the element goes in front
of the first position it compares le with. -/
def insertBy (le : α → α → Bool) (x : α) : List α → List α
  | [] => [x]
  | b :: bs => if le x b then x :: b :: bs else b :: insertBy le x bs

/-- Stable insertion sort with respect to le. -/
def sortBy (le : α → α → Bool) (l : List α) : List α :=
  l.foldr (insertBy le) []

/-- Comparison on Option Nat matching how MongoDB orders the boostedUntil
key: an absent or null value sorts below every date. -/
def optNatLe : Option Nat → Option Nat → Bool
  | none, _ => true
  | some _, none => false
  | some a, some b => a ≤ b

/-- Order used by sort({ boostedUntil: -1 }): larger boostedUntil first,
absent boostedUntil last. -/
def boostDescLe (u v : UserDoc) : Bool :=
  optNatLe v.boostedUntil u.boostedUntil

/-- Order produced by the $near operator: ascending distance from the
query center. -/
def nearLe (dist : GeoDist) (center : Int × Int) (u v : UserDoc) : Bool :=
  dist u.location center ≤ dist v.location center

/-- The query document both getProfiles variants build, applied to one
user document: not the requester, not on hiatus, within maxDistance
kilometers of the center, inside the age range, and matching each
optional attribute filter that is present. genderAll and prefsAll tell
whether the variant defaults the field to the string all (the unnamed
variant) or omits the filter only when the parameter is absent (the
controller in src). -/
def profileQueryPred (dist : GeoDist) (requester : Id) (center : Int × Int)
    (q : FilterQuery) (genderAll prefsAll : Bool) (u : UserDoc) : Bool :=
  u.id != requester
  && u.hiatus == false
  && dist u.location center ≤ (q.maxDistance.getD 50) * 1000
  && (q.minAge.getD 18) ≤ u.age && u.age ≤ (q.maxAge.getD 100)
  && (if genderAll then
        (q.gender.getD "all" == "all" || u.gender == q.gender.getD "all")
      else
        (match q.gender with | none => true | some g => u.gender == g))
  && (match q.interests with
      | none => true
      | some s => u.interests.any (fun i => (s.splitOn ",").contains i))
  && (if prefsAll then
        (q.preferences.getD "all" == "all" || u.preferences == q.preferences.getD "all")
      else
        (match q.preferences with | none => true | some p => u.preferences == p))
  && (match q.ethnicity with | none => true | some e => u.ethnicity == some e)
  && (match q.education with | none => true | some e => u.education == some e)
  && (match q.smoking with | none => true | some s => u.smoking == (s == "true"))

/-- Embedding of getProfiles from src/controllers/userController.js (the
ledger-based controller). The requester must exist (404 otherwise); there
is no presence check on lat and lng, so with either absent the parseFloat
yields NaN and the $near query is rejected by the store; otherwise the
matching documents come back in $near order (ascending distance) and only
the first 10 are returned. This variant does not touch the views counter,
so the store is returned unchanged. -/
def getProfilesMain (dist : GeoDist) (db : DB) (requester : Id) (q : FilterQuery) :
    Except JsError (List UserDoc) × DB :=
  match findById db requester with
  | none => (Except.error (JsError.api 404 "User not found"), db)
  | some _ =>
    match q.lat, q.lng with
    | some latv, some lngv =>
      let center : Int × Int := (lngv, latv)
      let found := sortBy (nearLe dist center)
        (db.users.filter (profileQueryPred dist requester center q false false))
      (Except.ok (found.take 10), db)
    | _, _ => (Except.error (JsError.storeErr "invalid point in geo near query"), db)

/-- Embedding of getProfiles from the unnamed second userController of the
repository. Latitude and longitude are mandatory (400 otherwise); gender
and preferences default to the string all; the matching documents are
sorted by sort({ boostedUntil: -1 }), which overrides the $near ordering,
modelled as a stable sort by descending boostedUntil over the
distance-ordered result; then the requester document is fetched and its
views counter incremented and saved (a null requester would crash on that
increment). There is no result limit in this variant. -/
def getProfilesAlt (dist : GeoDist) (db : DB) (requester : Id) (q : FilterQuery) :
    Except JsError (List UserDoc) × DB :=
  match q.lat, q.lng with
  | some latv, some lngv =>
    let center : Int × Int := (lngv, latv)
    let found := sortBy boostDescLe (sortBy (nearLe dist center)
      (db.users.filter (profileQueryPred dist requester center q true true)))
    match findById db requester with
    | none => (Except.error (JsError.typeErr "Cannot read properties of null"), db)
    | some cu =>
      let cu1 : UserDoc := { cu with views := cu.views + 1 }
      (Except.ok found, saveUser db cu1)
  | _, _ => (Except.error (JsError.api 400 "Latitude and longitude are required"), db)

/-! Helper lemmas about the store operations and the sorting helpers. -/

theorem mem_insertBy (le : α → α → Bool) (x a : α) (l : List α) :
    a ∈ insertBy le x l ↔ a = x ∨ a ∈ l := by
  induction l with
  | nil => simp [insertBy]
  | cons b bs ih =>
    by_cases h : le x b = true
    · simp [insertBy, h]
    · simp only [insertBy, if_neg h, List.mem_cons, ih]
      tauto

theorem mem_sortBy (le : α → α → Bool) (a : α) (l : List α) :
    a ∈ sortBy le l ↔ a ∈ l := by
  induction l with
  | nil => simp [sortBy]
  | cons b bs ih =>
    simp only [sortBy, List.foldr_cons] at *
    rw [mem_insertBy, ih, List.mem_cons]

theorem perm_insertBy (le : α → α → Bool) (x : α) (l : List α) :
    (insertBy le x l).Perm (x :: l) := by
  induction l with
  | nil => simp [insertBy]
  | cons b bs ih =>
    by_cases h : le x b = true
    · simp [insertBy, h]
    · simp only [insertBy, if_neg h]
      exact (ih.cons b).trans (List.Perm.swap x b bs)

theorem perm_sortBy (le : α → α → Bool) (l : List α) :
    (sortBy le l).Perm l := by
  induction l with
  | nil => simp [sortBy]
  | cons b bs ih =>
    simp only [sortBy, List.foldr_cons] at *
    exact (perm_insertBy le b _).trans (ih.cons b)

theorem pairwise_insertBy (le : α → α → Bool)
    (hTot : ∀ a b, le a b = true ∨ le b a = true)
    (hTrans : ∀ a b c, le a b = true → le b c = true → le a c = true)
    (x : α) (l : List α) (hl : l.Pairwise (fun a b => le a b = true)) :
    (insertBy le x l).Pairwise (fun a b => le a b = true) := by
  induction l with
  | nil => simp [insertBy]
  | cons b bs ih =>
    rcases List.pairwise_cons.mp hl with ⟨hb, hbs⟩
    by_cases h : le x b = true
    · simp only [insertBy, if_pos h]
      refine List.pairwise_cons.mpr ⟨?_, hl⟩
      intro y hy
      rcases List.mem_cons.mp hy with rfl | hy
      · exact h
      · exact hTrans x b y h (hb y hy)
    · simp only [insertBy, if_neg h]
      refine List.pairwise_cons.mpr ⟨?_, ih hbs⟩
      intro y hy
      rcases (mem_insertBy le x y bs).mp hy with rfl | hy
      · rcases hTot y b with hyb | hby
        · exact absurd hyb h
        · exact hby
      · exact hb y hy

theorem pairwise_sortBy (le : α → α → Bool)
    (hTot : ∀ a b, le a b = true ∨ le b a = true)
    (hTrans : ∀ a b c, le a b = true → le b c = true → le a c = true)
    (l : List α) :
    (sortBy le l).Pairwise (fun a b => le a b = true) := by
  induction l with
  | nil => simp [sortBy]
  | cons b bs ih =>
    simp only [sortBy, List.foldr_cons] at *
    exact pairwise_insertBy le hTot hTrans b _ ih

theorem optNatLe_total (a b : Option Nat) : optNatLe a b = true ∨ optNatLe b a = true := by
  cases a <;> cases b <;> simp [optNatLe] <;> omega

theorem optNatLe_trans (a b c : Option Nat)
    (h1 : optNatLe a b = true) (h2 : optNatLe b c = true) : optNatLe a c = true := by
  cases a <;> cases b <;> cases c <;> simp [optNatLe] at * <;> omega

theorem boostDescLe_total (u v : UserDoc) :
    boostDescLe u v = true ∨ boostDescLe v u = true := by
  unfold boostDescLe
  exact (optNatLe_total v.boostedUntil u.boostedUntil).symm.imp id id |>.symm

theorem boostDescLe_trans (u v w : UserDoc)
    (h1 : boostDescLe u v = true) (h2 : boostDescLe v w = true) :
    boostDescLe u w = true := by
  unfold boostDescLe at *
  exact optNatLe_trans w.boostedUntil v.boostedUntil u.boostedUntil h2 h1

theorem find?_append_none (p : α → Bool) (l₁ l₂ : List α)
    (h : l₁.find? p = none) : (l₁ ++ l₂).find? p = l₂.find? p := by
  rw [List.find?_append, h, Option.none_or]

theorem findById_some_id {db : DB} {x : Id} {u : UserDoc}
    (h : findById db x = some u) : u.id = x := by
  have := List.find?_some h
  simpa using this

theorem find?_map_save (u : UserDoc) (x : Id) (l : List UserDoc) :
    ((l.map (fun v => if v.id == u.id then u else v)).find? (fun v => v.id == x)).isSome
      = (l.find? (fun v => v.id == x)).isSome := by
  induction l with
  | nil => simp
  | cons a l ih =>
    simp only [List.map_cons, List.find?_cons]
    by_cases ha : a.id = u.id
    · rw [if_pos (by simpa using ha)]
      by_cases hx : a.id = x
      · have hax : (a.id == x) = true := by simpa using hx
        have hux : (u.id == x) = true := by rw [← ha]; exact hax
        simp [hax, hux]
      · have hax : (a.id == x) = false := by simpa using hx
        have hux : (u.id == x) = false := by rw [← ha]; exact hax
        simp only [hax, hux]
        exact ih
    · rw [if_neg (by simpa using ha)]
      by_cases hx : a.id = x
      · have hax : (a.id == x) = true := by simpa using hx
        simp [hax]
      · have hax : (a.id == x) = false := by simpa using hx
        simp only [hax]
        exact ih

theorem findById_saveUser_isSome (db : DB) (u : UserDoc) (x : Id) :
    (findById (saveUser db u) x).isSome = (findById db x).isSome := by
  unfold findById saveUser
  exact find?_map_save u x db.users

theorem find?_map_save_self (u : UserDoc) (l : List UserDoc)
    (h : (l.find? (fun v => v.id == u.id)).isSome = true) :
    (l.map (fun v => if v.id == u.id then u else v)).find? (fun v => v.id == u.id) = some u := by
  induction l with
  | nil => simp at h
  | cons a l ih =>
    simp only [List.map_cons, List.find?_cons]
    by_cases ha : a.id = u.id
    · rw [if_pos (by simpa using ha)]
      simp
    · rw [if_neg (by simpa using ha)]
      have hax : (a.id == u.id) = false := by simpa using ha
      simp only [hax]
      apply ih
      rw [List.find?_cons] at h
      simp only [hax] at h
      exact h

theorem findById_saveUser_self {db : DB} (u : UserDoc)
    (h : (findById db u.id).isSome = true) :
    findById (saveUser db u) u.id = some u := by
  unfold findById saveUser at *
  exact find?_map_save_self u db.users h


theorem saveUser_likes (db : DB) (u : UserDoc) : (saveUser db u).likes = db.likes := rfl

theorem saveUser_matchDocs (db : DB) (u : UserDoc) : (saveUser db u).matchDocs = db.matchDocs := rfl

theorem option_or_eq_none {α : Type u} {x y : Option α} (h : x.or y = none) :
    x = none ∧ y = none := by
  cases x with
  | none => cases y with
    | none => exact ⟨rfl, rfl⟩
    | some b => simp [Option.or] at h
  | some a => simp [Option.or] at h

theorem likeProfile_right_ok (db : DB) (a b : Id) (now : Nat) (r : LikeResp) (db1 : DB)
    (h : likeProfile db a b "right" now = (Except.ok r, db1)) :
    a ≠ b ∧ (findById db b).isSome = true
    ∧ (findById db a).isSome = true
    ∧ db.likes.find? (likePred a b) = none
    ∧ db1.likes = db.likes ++ [{ liker := a, likee := b, isSuperLike := false, createdAt := now }]
    ∧ (∀ x, (findById db1 x).isSome = (findById db x).isSome)
    ∧ (db.likes.find? (likePred b a) = none → db1.matchDocs = db.matchDocs)
    ∧ (∀ m0, db.likes.find? (likePred b a) = some m0 →
        (db.matchDocs.find? (matchPred a b) = none →
          db1.matchDocs = db.matchDocs ++ [{ users := [a, b], createdAt := now }])
        ∧ (∀ mm, db.matchDocs.find? (matchPred a b) = some mm → db1.matchDocs = db.matchDocs)) := by
  unfold likeProfile at h
  rw [if_neg (by simp)] at h
  by_cases hab : a = b
  · rw [if_pos hab] at h; simp at h
  rw [if_neg hab] at h
  cases htb : findById db b with
  | none => rw [htb] at h; simp at h
  | some tgt =>
    rw [htb] at h
    rw [if_pos rfl] at h
    cases hdup : db.likes.find? (likePred a b) with
    | some l0 => rw [hdup] at h; simp at h
    | none =>
      rw [hdup] at h
      simp only [] at h
      have hlkBA : likePred b a ({ liker := a, likee := b, isSuperLike := false, createdAt := now } : LikeDoc) = false := by
        simp [likePred, hab]
      split at h
      · simp at h
      · rename_i user hua
        split at h
        · rename_i hmut
          rw [Prod.mk.injEq] at h
          obtain ⟨-, h2⟩ := h
          subst h2
          rw [saveUser_likes] at hmut
          rw [show ({ db with likes := db.likes ++ [{ liker := a, likee := b, isSuperLike := false, createdAt := now }] } : DB).likes = db.likes ++ [{ liker := a, likee := b, isSuperLike := false, createdAt := now }] from rfl] at hmut
          rw [List.find?_append] at hmut
          have hmutBase : db.likes.find? (likePred b a) = none := (option_or_eq_none hmut).1
          refine ⟨hab, by simp, by simp [hua], by simp, by simp [saveUser], ?_, fun _ => rfl, ?_⟩
          · intro x
            exact findById_saveUser_isSome ({ db with likes := db.likes ++ [{ liker := a, likee := b, isSuperLike := false, createdAt := now }] }) ({ user with lastSwipeAction := { direction := some "right", targetId := some b, timestamp := some now } }) x
          · intro m0 hm0
            rw [hmutBase] at hm0
            exact absurd hm0 (by simp)
        · rename_i mlk hmut
          split at h
          · rename_i mm hmm
            rw [Prod.mk.injEq] at h
            obtain ⟨-, h2⟩ := h
            subst h2
            rw [saveUser_matchDocs] at hmm
            rw [show ({ db with likes := db.likes ++ [{ liker := a, likee := b, isSuperLike := false, createdAt := now }] } : DB).matchDocs = db.matchDocs from rfl] at hmm
            refine ⟨hab, by simp, by simp [hua], by simp, by simp [saveUser], ?_, fun _ => rfl, ?_⟩
            · intro x
              exact findById_saveUser_isSome ({ db with likes := db.likes ++ [{ liker := a, likee := b, isSuperLike := false, createdAt := now }] }) ({ user with lastSwipeAction := { direction := some "right", targetId := some b, timestamp := some now } }) x
            · intro m0 hm0
              refine ⟨fun hnone => ?_, fun _ _ => rfl⟩
              rw [hnone] at hmm
              exact absurd hmm (by simp)
          · rename_i hmm
            rw [Prod.mk.injEq] at h
            obtain ⟨-, h2⟩ := h
            subst h2
            rw [saveUser_likes] at hmut
            rw [show ({ db with likes := db.likes ++ [{ liker := a, likee := b, isSuperLike := false, createdAt := now }] } : DB).likes = db.likes ++ [{ liker := a, likee := b, isSuperLike := false, createdAt := now }] from rfl] at hmut
            rw [List.find?_append] at hmut
            rw [saveUser_matchDocs] at hmm
            rw [show ({ db with likes := db.likes ++ [{ liker := a, likee := b, isSuperLike := false, createdAt := now }] } : DB).matchDocs = db.matchDocs from rfl] at hmm
            have hmutBase : db.likes.find? (likePred b a) = some mlk := by
              cases hfa : db.likes.find? (likePred b a) with
              | none =>
                rw [hfa] at hmut
                simp [hlkBA, Option.or] at hmut
              | some m0 =>
                rw [hfa] at hmut
                simp [Option.or] at hmut
                rw [hmut]
            refine ⟨hab, by simp, by simp [hua], by simp, by simp [saveUser], ?_, ?_, ?_⟩
            · intro x
              exact findById_saveUser_isSome ({ db with likes := db.likes ++ [{ liker := a, likee := b, isSuperLike := false, createdAt := now }] }) ({ user with lastSwipeAction := { direction := some "right", targetId := some b, timestamp := some now } }) x
            · intro hno
              rw [hno] at hmutBase
              exact absurd hmutBase (by simp)
            · intro m0 hm0
              exact ⟨fun _ => by simp [saveUser_matchDocs], fun mm hmm2 => absurd (hmm2 ▸ hmm) (by simp)⟩


/-- C2: for distinct users a and b, a second right swipe on the same pair
fails with the duplicate-action ApiError; and an up swipe fails with the
duplicate-maybe ApiError when the target is already in the actor maybe
list, otherwise it appends the target to the maybe list and updates
lastSwipeAction. -/
theorem duplicate_swipe_rejected (db : DB) (a b : Id) (now now2 : Nat) :
    (∀ r db1, likeProfile db a b "right" now = (Except.ok r, db1) →
      (likeProfile db1 a b "right" now2).fst =
        Except.error (JsError.api 400 "Already liked this profile"))
    ∧ (∀ u, a ≠ b → (findById db b).isSome = true → findById db a = some u →
        (b ∈ u.maybeLikes →
          likeProfile db a b "up" now =
            (Except.error (JsError.api 400 "Already marked as maybe"), db))
        ∧ (b ∉ u.maybeLikes →
          likeProfile db a b "up" now =
            (Except.ok (LikeResp.maybeMarked b),
             saveUser db { u with
               maybeLikes := u.maybeLikes ++ [b],
               lastSwipeAction :=
                 { direction := some "up", targetId := some b, timestamp := some now } }))) := by
  constructor
  · intro r db1 h
    obtain ⟨hab, hb, ha, hdup, hlikes, hids, -, -⟩ := likeProfile_right_ok db a b now r db1 h
    have hfound : db1.likes.find? (likePred a b) =
        some { liker := a, likee := b, isSuperLike := false, createdAt := now } := by
      rw [hlikes, List.find?_append, hdup]
      simp [likePred, Option.or]
    have hb1 : (findById db1 b).isSome = true := by rw [hids b]; exact hb
    obtain ⟨tgt, htgt⟩ := Option.isSome_iff_exists.mp hb1
    unfold likeProfile
    rw [if_neg (by simp), if_neg hab, htgt, if_pos rfl, hfound]
  · intro u hab hb hua
    obtain ⟨tgt, htgt⟩ := Option.isSome_iff_exists.mp hb
    constructor
    · intro hmem
      unfold likeProfile
      rw [if_neg (by simp), if_neg hab, htgt, if_neg (by simp), hua]
      simp [hmem]
    · intro hmem
      unfold likeProfile
      rw [if_neg (by simp), if_neg hab, htgt, if_neg (by simp), hua]
      simp [hmem]


/-- A minimal profile document used by the concrete witnesses. -/
def sampleUser (i : Id) : UserDoc :=
  { id := i, location := (0, 0), age := 25, gender := "female", interests := [],
    preferences := "casual", ethnicity := none, education := none, smoking := false,
    views := 0, hiatus := false, maybeLikes := [],
    lastSwipeAction := LastSwipe.cleared, boostedUntil := none }

/-- A store holding two fresh profiles and nothing else. -/
def pairDB : DB :=
  { users := [sampleUser 1, sampleUser 2], likes := [], matchDocs := [], messages := [],
    confessions := [], safetyReports := [], events := [] }

/-- Witness for duplicate_swipe_rejected on the two-profile store. -/
theorem duplicate_swipe_rejected_witness :
    (likeProfile (likeProfile pairDB 1 2 "right" 5).snd 1 2 "right" 6).fst =
      Except.error (JsError.api 400 "Already liked this profile")
    ∧ likeProfile pairDB 1 2 "up" 5 =
        (Except.ok (LikeResp.maybeMarked 2),
         saveUser pairDB { sampleUser 1 with
           maybeLikes := [2],
           lastSwipeAction := { direction := some "up", targetId := some 2, timestamp := some 5 } }) :=
  ⟨(duplicate_swipe_rejected pairDB 1 2 5 6).1 LikeResp.liked
      (likeProfile pairDB 1 2 "right" 5).snd rfl,
   ((duplicate_swipe_rejected pairDB 1 2 5 5).2 (sampleUser 1) (by decide) rfl rfl).2
      (by decide)⟩


theorem matchPred_comm (a b : Id) (m : MatchDoc) : matchPred a b m = matchPred b a m := by
  unfold matchPred
  exact Bool.and_comm _ _

/-- C1: if a right swipe from a on b succeeds and then a right swipe from
b on a succeeds, starting from a store with no Match for the unordered
pair, exactly one Match for the pair exists afterwards: the second call
performs the reciprocity check and creates the single Match (and had a
Match already existed it would have been returned idempotently instead,
by the matchExists branch of likeProfile). -/
theorem mutual_right_swipes_one_match (db : DB) (a b : Id) (n1 n2 : Nat)
    (r1 r2 : LikeResp) (db1 db2 : DB)
    (hnomatch : db.matchDocs.filter (matchPred a b) = [])
    (h1 : likeProfile db a b "right" n1 = (Except.ok r1, db1))
    (h2 : likeProfile db1 b a "right" n2 = (Except.ok r2, db2)) :
    (db2.matchDocs.filter (matchPred a b)).length = 1 := by
  obtain ⟨hab, -, -, hdup1, hlikes1, -, hcond1, -⟩ := likeProfile_right_ok db a b n1 r1 db1 h1
  obtain ⟨-, -, -, hdup2, hlikes2, -, -, hcreate2⟩ := likeProfile_right_ok db1 b a n2 r2 db2 h2
  -- the second call succeeded, so no reverse like existed before the first call either
  have hrevnone : db.likes.find? (likePred b a) = none := by
    rw [hlikes1, List.find?_append] at hdup2
    exact (option_or_eq_none hdup2).1
  -- hence the first call created no match
  have hm1 : db1.matchDocs = db.matchDocs := hcond1 hrevnone
  -- the second call found the like the first call inserted
  have hmut2 : db1.likes.find? (likePred a b) =
      some { liker := a, likee := b, isSuperLike := false, createdAt := n1 } := by
    rw [hlikes1, List.find?_append, hdup1]
    simp [likePred, Option.or]
  -- no match for the pair existed before the second call
  have hnomatch1 : db1.matchDocs.find? (matchPred b a) = none := by
    rw [hm1]
    rw [List.find?_eq_none]
    intro m hm
    rw [← matchPred_comm]
    exact (List.filter_eq_nil_iff.mp hnomatch) m hm
  -- so the second call appended exactly one match for the pair
  have hm2 : db2.matchDocs = db1.matchDocs ++ [{ users := [b, a], createdAt := n2 }] :=
    (hcreate2 _ hmut2).1 hnomatch1
  rw [hm2, hm1, List.filter_append, hnomatch]
  simp [matchPred]


/-- Witness for mutual_right_swipes_one_match: 1 likes 2, then 2 likes 1. -/
theorem mutual_right_swipes_one_match_witness :
    (((likeProfile (likeProfile pairDB 1 2 "right" 5).snd 2 1 "right" 6).snd).matchDocs.filter
      (matchPred 1 2)).length = 1 :=
  mutual_right_swipes_one_match pairDB 1 2 5 6 LikeResp.liked LikeResp.matchCreated
    (likeProfile pairDB 1 2 "right" 5).snd
    (likeProfile (likeProfile pairDB 1 2 "right" 5).snd 2 1 "right" 6).snd
    rfl rfl rfl

/-- C3: a successful undo always clears lastSwipeAction to the all-null
state, so a second undo with no intervening swipe fails with the
no-recent-action ApiError. -/



theorem undo_blocked_after_save (dbX : DB) (u1 : UserDoc) (uid : Id) (now2 : Nat)
    (hid : u1.id = uid)
    (hisSome : (findById dbX u1.id).isSome = true)
    (hcleared : u1.lastSwipeAction = LastSwipe.cleared) :
    (findById (saveUser dbX u1) uid).map UserDoc.lastSwipeAction = some LastSwipe.cleared
    ∧ (undoLastSwipe (saveUser dbX u1) uid now2).fst =
        Except.error (JsError.api 400 "No recent swipe to undo") := by
  have hself : findById (saveUser dbX u1) uid = some u1 := by
    rw [← hid]
    exact findById_saveUser_self u1 hisSome
  constructor
  · rw [hself]
    simp [hcleared]
  · unfold undoLastSwipe
    rw [hself]
    simp [hcleared, LastSwipe.cleared]

/-- C3: a successful undo always clears lastSwipeAction to the all-null
state, so a second undo with no intervening swipe fails with the
no-recent-action ApiError. -/
theorem undo_single_shot (db : DB) (uid : Id) (now now2 : Nat)
    (r : Option UserDoc) (db1 : DB)
    (h : undoLastSwipe db uid now = (Except.ok r, db1)) :
    (findById db1 uid).map UserDoc.lastSwipeAction = some LastSwipe.cleared
    ∧ (undoLastSwipe db1 uid now2).fst =
        Except.error (JsError.api 400 "No recent swipe to undo") := by
  unfold undoLastSwipe at h
  cases hua : findById db uid with
  | none => rw [hua] at h; simp at h
  | some user =>
    rw [hua] at h
    simp only [] at h
    have huid : user.id = uid := findById_some_id hua
    split at h
    · rename_i dir tgt ts hdir htgt hts
      split at h
      · simp at h
      · split at h
        · split at h
          · simp at h
          · rename_i lk hfound
            rw [Prod.mk.injEq] at h
            obtain ⟨-, h2⟩ := h
            subst h2
            exact undo_blocked_after_save _ _ uid now2 huid
              (by show (findById db user.id).isSome = true; rw [huid, hua]; rfl) rfl
        · split at h
          · rw [Prod.mk.injEq] at h
            obtain ⟨-, h2⟩ := h
            subst h2
            exact undo_blocked_after_save _ _ uid now2 huid
              (by show (findById db user.id).isSome = true; rw [huid, hua]; rfl) rfl
          · rw [Prod.mk.injEq] at h
            obtain ⟨-, h2⟩ := h
            subst h2
            exact undo_blocked_after_save _ _ uid now2 huid
              (by show (findById db user.id).isSome = true; rw [huid, hua]; rfl) rfl
    · simp at h


/-- Witness for undo_single_shot: 1 swipes right on 2, undoes it at time
6, and a second undo fails. -/
theorem undo_single_shot_witness :
    (findById (undoLastSwipe (likeProfile pairDB 1 2 "right" 5).snd 1 6).snd 1).map
      UserDoc.lastSwipeAction = some LastSwipe.cleared
    ∧ (undoLastSwipe (undoLastSwipe (likeProfile pairDB 1 2 "right" 5).snd 1 6).snd 1 7).fst =
        Except.error (JsError.api 400 "No recent swipe to undo") :=
  undo_single_shot (likeProfile pairDB 1 2 "right" 5).snd 1 6 7
    (some (sampleUser 2)) (undoLastSwipe (likeProfile pairDB 1 2 "right" 5).snd 1 6).snd rfl

/-- C4: with a recorded right swipe at time ts whose ledger entry exists,
an undo one millisecond before the 24-hour boundary succeeds, an undo one
millisecond past it fails with the expiry ApiError, and on that failure
the store, in particular the ledger entry, is untouched. -/
theorem undo_window_boundary (db : DB) (uid tgt : Id) (ts : Nat) (user : UserDoc)
    (hua : findById db uid = some user)
    (hlsa : user.lastSwipeAction =
      { direction := some "right", targetId := some tgt, timestamp := some ts })
    (hlike : (db.likes.find? (likePred uid tgt)).isSome = true) :
    (∃ r db1, undoLastSwipe db uid (ts + undoWindowMs - 1) = (Except.ok r, db1))
    ∧ undoLastSwipe db uid (ts + undoWindowMs + 1) =
        (Except.error (JsError.api 400 "Undo period expired (24 hours)"), db)
    ∧ ((undoLastSwipe db uid (ts + undoWindowMs + 1)).snd.likes.find?
        (likePred uid tgt)).isSome = true := by
  have key2 : undoLastSwipe db uid (ts + undoWindowMs + 1) =
      (Except.error (JsError.api 400 "Undo period expired (24 hours)"), db) := by
    unfold undoLastSwipe
    rw [hua]
    simp only [hlsa]
    rw [if_pos (by simp only [undoWindowMs]; omega)]
  refine ⟨?_, key2, ?_⟩
  · obtain ⟨lk, hlk⟩ := Option.isSome_iff_exists.mp hlike
    unfold undoLastSwipe
    rw [hua]
    simp only [hlsa]
    rw [if_neg (by simp only [undoWindowMs]; omega)]
    rw [if_pos trivial, hlk]
    exact ⟨_, _, rfl⟩
  · rw [key2]
    exact hlike

/-- Witness for undo_window_boundary on a store where 1 liked 2 at time 0. -/
theorem undo_window_boundary_witness :
    (∃ r db1, undoLastSwipe (likeProfile pairDB 1 2 "right" 0).snd 1 (0 + undoWindowMs - 1) =
      (Except.ok r, db1))
    ∧ undoLastSwipe (likeProfile pairDB 1 2 "right" 0).snd 1 (0 + undoWindowMs + 1) =
        (Except.error (JsError.api 400 "Undo period expired (24 hours)"),
         (likeProfile pairDB 1 2 "right" 0).snd)
    ∧ (((undoLastSwipe (likeProfile pairDB 1 2 "right" 0).snd 1
          (0 + undoWindowMs + 1)).snd.likes.find? (likePred 1 2)).isSome = true) :=
  undo_window_boundary (likeProfile pairDB 1 2 "right" 0).snd 1 2 0
    { sampleUser 1 with lastSwipeAction :=
      { direction := some "right", targetId := some 2, timestamp := some 0 } }
    rfl rfl rfl

/-- C5 as stated is false: when the lastSwipeAction records a right swipe
whose ledger entry is gone, undoLastSwipe does not report success. On this
concrete store (user 1 has lastSwipeAction right on 2 at time 0, empty
ledger) the call at time 10 returns the ApiError 400 "Like not found to
undo", which asyncHandler rethrows to the caller, so the caller observes a
failed request, not a successful no-op. -/
def missingLikeDB : DB :=
  { users := [{ sampleUser 1 with lastSwipeAction :=
      { direction := some "right", targetId := some 2, timestamp := some 0 } }, sampleUser 2],
    likes := [], matchDocs := [], messages := [], confessions := [],
    safetyReports := [], events := [] }

/-- C5 counterexample: the undo of a vanished ledger entry surfaces an
error to the caller instead of succeeding as a no-op. -/
theorem undo_missing_like_cx :
    (undoLastSwipe missingLikeDB 1 10).fst =
      Except.error (JsError.api 400 "Like not found to undo") := rfl

/-- C5 amended: when the lastSwipeAction records a right swipe whose
ledger entry is already gone, an undo inside the window fails with the
ApiError 400 "Like not found to undo" (propagated to the caller by
asyncHandler, never converted to a success), and the store is returned
unchanged: in particular lastSwipeAction is not cleared. -/
theorem undo_missing_like_errors (db : DB) (uid tgt : Id) (ts now : Nat) (user : UserDoc)
    (hua : findById db uid = some user)
    (hlsa : user.lastSwipeAction =
      { direction := some "right", targetId := some tgt, timestamp := some ts })
    (hwin : ¬(now - ts > undoWindowMs))
    (hmiss : db.likes.find? (likePred uid tgt) = none) :
    undoLastSwipe db uid now =
      (Except.error (JsError.api 400 "Like not found to undo"), db) := by
  unfold undoLastSwipe
  rw [hua]
  simp only [hlsa]
  rw [if_neg hwin, if_pos trivial, hmiss]

/-- Witness for undo_missing_like_errors on the concrete store. -/
theorem undo_missing_like_errors_witness :
    undoLastSwipe missingLikeDB 1 10 =
      (Except.error (JsError.api 400 "Like not found to undo"), missingLikeDB) :=
  undo_missing_like_errors missingLikeDB 1 2 0 10
    { sampleUser 1 with lastSwipeAction :=
      { direction := some "right", targetId := some 2, timestamp := some 0 } }
    rfl rfl (by simp [undoWindowMs]) rfl

/-- C10: deleteProfile deletes the messages, matches and likes of the
user, then evaluates Confession.deleteMany although the module never
imports Confession, so it throws an uncaught ReferenceError; the
SafetyReport cascade, the maybeLikes pull and the User.deleteOne are never
reached: the users collection (including every maybeLikes list) and the
safetyReports collection are untouched. -/
theorem delete_profile_reference_error (db : DB) (uid : Id)
    (hex : (findById db uid).isSome = true) :
    (deleteProfile db uid).fst = Except.error (JsError.refErr "Confession")
    ∧ (deleteProfile db uid).snd.users = db.users
    ∧ (deleteProfile db uid).snd.messages =
        db.messages.filter (fun m => !(m.sender == uid || m.receiver == uid))
    ∧ (deleteProfile db uid).snd.matchDocs =
        db.matchDocs.filter (fun m => !(m.users.contains uid))
    ∧ (deleteProfile db uid).snd.likes =
        db.likes.filter (fun l => !(l.liker == uid || l.likee == uid))
    ∧ (deleteProfile db uid).snd.safetyReports = db.safetyReports := by
  obtain ⟨u, hu⟩ := Option.isSome_iff_exists.mp hex
  unfold deleteProfile
  rw [hu]
  exact ⟨rfl, rfl, rfl, rfl, rfl, rfl⟩

/-- Witness for delete_profile_reference_error on the two-profile store. -/
theorem delete_profile_reference_error_witness :
    (deleteProfile pairDB 1).fst = Except.error (JsError.refErr "Confession")
    ∧ (deleteProfile pairDB 1).snd.users = pairDB.users
    ∧ (deleteProfile pairDB 1).snd.messages =
        pairDB.messages.filter (fun m => !(m.sender == 1 || m.receiver == 1))
    ∧ (deleteProfile pairDB 1).snd.matchDocs =
        pairDB.matchDocs.filter (fun m => !(m.users.contains 1))
    ∧ (deleteProfile pairDB 1).snd.likes =
        pairDB.likes.filter (fun l => !(l.liker == 1 || l.likee == 1))
    ∧ (deleteProfile pairDB 1).snd.safetyReports = pairDB.safetyReports :=
  delete_profile_reference_error pairDB 1 rfl


/-- A concrete metric for the witnesses: taxicab distance on the stored
integer coordinates. -/
def manhattan : GeoDist := fun p c => ((p.1 - c.1).natAbs + (p.2 - c.2).natAbs)

/-- A filter with only the mandatory center present. -/
def centerOnlyQ : FilterQuery :=
  { lat := some 0, lng := some 0, maxDistance := none, minAge := none, maxAge := none,
    gender := none, interests := none, preferences := none, ethnicity := none,
    education := none, smoking := none }

/-- A filter with both center coordinates absent. -/
def noCenterQ : FilterQuery :=
  { lat := none, lng := none, maxDistance := none, minAge := none, maxAge := none,
    gender := none, interests := none, preferences := none, ethnicity := none,
    education := none, smoking := none }

/-- C6 amended: only the discovery variant with the explicit center check
fails with the typed ApiError 400 "Latitude and longitude are required"
when either coordinate is absent, and succeeds when only the center is
present; the src controller variant performs no such check: there an
absent center makes parseFloat yield NaN and the store rejects the geo
query with an untyped error, while with the center present every other
filter field may likewise be omitted without error. -/
theorem discovery_center_mandatory (dist : GeoDist) (db : DB) (uid : Id) (q : FilterQuery)
    (latv lngv : Int) (cu : UserDoc) :
    ((q.lat = none ∨ q.lng = none) →
      (getProfilesAlt dist db uid q).fst =
        Except.error (JsError.api 400 "Latitude and longitude are required"))
    ∧ (findById db uid = some cu →
      ((getProfilesAlt dist db uid
        { lat := some latv, lng := some lngv, maxDistance := none, minAge := none,
          maxAge := none, gender := none, interests := none, preferences := none,
          ethnicity := none, education := none, smoking := none }).fst).isOk = true)
    ∧ (findById db uid = some cu → (q.lat = none ∨ q.lng = none) →
      (getProfilesMain dist db uid q).fst =
        Except.error (JsError.storeErr "invalid point in geo near query"))
    ∧ (findById db uid = some cu →
      ((getProfilesMain dist db uid
        { lat := some latv, lng := some lngv, maxDistance := none, minAge := none,
          maxAge := none, gender := none, interests := none, preferences := none,
          ethnicity := none, education := none, smoking := none }).fst).isOk = true) := by
  refine ⟨?_, ?_, ?_, ?_⟩
  · intro hc
    unfold getProfilesAlt
    cases hql : q.lat with
    | none => cases q.lng <;> rfl
    | some v =>
      cases hqg : q.lng with
      | none => rfl
      | some w =>
        exfalso
        rcases hc with h | h
        · rw [hql] at h; exact Option.noConfusion h
        · rw [hqg] at h; exact Option.noConfusion h
  · intro hcu
    unfold getProfilesAlt
    simp only []
    rw [hcu]
    rfl
  · intro hcu hc
    unfold getProfilesMain
    rw [hcu]
    simp only []
    cases hql : q.lat with
    | none => cases q.lng <;> rfl
    | some v =>
      cases hqg : q.lng with
      | none => rfl
      | some w =>
        exfalso
        rcases hc with h | h
        · rw [hql] at h; exact Option.noConfusion h
        · rw [hqg] at h; exact Option.noConfusion h
  · intro hcu
    unfold getProfilesMain
    rw [hcu]
    rfl

/-- C6 counterexample: on the src controller variant a request with the
center absent does not fail with the typed ApiError 400 "Latitude and
longitude are required": parseFloat of the missing parameters yields NaN
and the store rejects the geo query with an untyped error, so the claim
that findCandidates always fails with the typed InvalidFilterError on an
absent center is false for this cited variant. -/
theorem discovery_center_cx :
    (getProfilesMain manhattan pairDB 1 noCenterQ).fst =
      Except.error (JsError.storeErr "invalid point in geo near query")
    ∧ (getProfilesMain manhattan pairDB 1 noCenterQ).fst ≠
        Except.error (JsError.api 400 "Latitude and longitude are required") :=
  ⟨rfl, by
    intro h
    rw [show (getProfilesMain manhattan pairDB 1 noCenterQ).fst =
      Except.error (JsError.storeErr "invalid point in geo near query") from rfl] at h
    exact JsError.noConfusion (Except.error.inj h)⟩

/-- Witness for discovery_center_mandatory on the two-profile store. -/
theorem discovery_center_mandatory_witness :
    ((getProfilesAlt manhattan pairDB 1 { noCenterQ with lng := some 0 }).fst =
      Except.error (JsError.api 400 "Latitude and longitude are required"))
    ∧ ((getProfilesAlt manhattan pairDB 1 centerOnlyQ).fst).isOk = true
    ∧ ((getProfilesMain manhattan pairDB 1 noCenterQ).fst =
        Except.error (JsError.storeErr "invalid point in geo near query"))
    ∧ ((getProfilesMain manhattan pairDB 1 centerOnlyQ).fst).isOk = true :=
  ⟨(discovery_center_mandatory manhattan pairDB 1 { noCenterQ with lng := some 0 } 0 0
      (sampleUser 1)).1 (Or.inl rfl),
   (discovery_center_mandatory manhattan pairDB 1 noCenterQ 0 0 (sampleUser 1)).2.1 rfl,
   (discovery_center_mandatory manhattan pairDB 1 noCenterQ 0 0 (sampleUser 1)).2.2.1 rfl
     (Or.inl rfl),
   (discovery_center_mandatory manhattan pairDB 1 noCenterQ 0 0 (sampleUser 1)).2.2.2 rfl⟩

/-- C7: neither discovery variant ever returns the requester or a profile
on hiatus: both build the query with an id-not-equal clause and
hiatus = false. -/
theorem discovery_excludes_self_and_hiatus (dist : GeoDist) (db : DB) (uid : Id)
    (q : FilterQuery) (l : List UserDoc) :
    ((getProfilesMain dist db uid q).fst = Except.ok l →
      ∀ u ∈ l, u.id ≠ uid ∧ u.hiatus = false)
    ∧ ((getProfilesAlt dist db uid q).fst = Except.ok l →
      ∀ u ∈ l, u.id ≠ uid ∧ u.hiatus = false) := by
  have predFacts : ∀ center genderAll prefsAll, ∀ u : UserDoc,
      profileQueryPred dist uid center q genderAll prefsAll u = true →
      u.id ≠ uid ∧ u.hiatus = false := by
    intro center genderAll prefsAll u hp
    unfold profileQueryPred at hp
    simp only [Bool.and_eq_true] at hp
    have hpair := hp.1.1.1.1.1.1.1.1.1
    constructor
    · simpa using hpair.1
    · simpa using hpair.2
  constructor
  · intro h u hu
    unfold getProfilesMain at h
    cases hcu : findById db uid with
    | none => rw [hcu] at h; simp at h
    | some cu =>
      rw [hcu] at h
      cases hql : q.lat with
      | none =>
        rw [hql] at h
        cases hqg : q.lng with
        | none => rw [hqg] at h; simp at h
        | some w => rw [hqg] at h; simp at h
      | some latv =>
        cases hqg : q.lng with
        | none => rw [hql, hqg] at h; simp at h
        | some lngv =>
          rw [hql, hqg] at h
          simp only [Except.ok.injEq] at h
          subst h
          have hu2 := (mem_sortBy _ u _).mp (List.take_subset _ _ hu)
          have hff := (List.mem_filter.mp hu2).2
          exact predFacts _ false false u hff
  · intro h u hu
    unfold getProfilesAlt at h
    cases hql : q.lat with
    | none => rw [hql] at h; simp at h
    | some latv =>
      cases hqg : q.lng with
      | none => rw [hql, hqg] at h; simp at h
      | some lngv =>
        rw [hql, hqg] at h
        simp only [] at h
        cases hcu : findById db uid with
        | none => rw [hcu] at h; simp at h
        | some cu =>
          rw [hcu] at h
          simp only [Except.ok.injEq] at h
          subst h
          have hu2 := (mem_sortBy _ u _).mp hu
          have hu3 := (mem_sortBy _ u _).mp hu2
          have hff := (List.mem_filter.mp hu3).2
          exact predFacts _ true true u hff


/-- Witness for discovery_excludes_self_and_hiatus on the two-profile
store with the main (ledger-controller) variant. -/
theorem discovery_excludes_self_and_hiatus_witness :
    ∀ u ∈ [sampleUser 2], u.id ≠ 1 ∧ u.hiatus = false :=
  (discovery_excludes_self_and_hiatus manhattan pairDB 1 centerOnlyQ [sampleUser 2]).1 rfl

/-- C8 amended: the view-counting discovery variant increments the
requester views counter by exactly one per successful invocation, and a
second invocation increments it again (the side effect is not
idempotent); the src controller variant never touches the counter and
returns the store unchanged. -/
theorem discovery_increments_views (dist : GeoDist) (db : DB) (uid : Id) (q : FilterQuery)
    (latv lngv : Int) (cu : UserDoc)
    (hlat : q.lat = some latv) (hlng : q.lng = some lngv)
    (hcu : findById db uid = some cu) :
    (findById (getProfilesAlt dist db uid q).snd uid).map UserDoc.views = some (cu.views + 1)
    ∧ (findById (getProfilesAlt dist (getProfilesAlt dist db uid q).snd uid q).snd uid).map
        UserDoc.views = some (cu.views + 2)
    ∧ (getProfilesMain dist db uid q).snd = db := by
  have step : ∀ (d : DB) (c : UserDoc), findById d uid = some c →
      (getProfilesAlt dist d uid q).snd = saveUser d { c with views := c.views + 1 } := by
    intro d c hc
    unfold getProfilesAlt
    rw [hlat, hlng]
    simp only []
    rw [hc]
  have stepv : ∀ (d : DB) (c : UserDoc), findById d uid = some c →
      findById (getProfilesAlt dist d uid q).snd uid = some { c with views := c.views + 1 } := by
    intro d c hc
    rw [step d c hc]
    have hcid : c.id = uid := findById_some_id hc
    rw [← hcid]
    exact findById_saveUser_self _
      (by show (findById d c.id).isSome = true; rw [hcid, hc]; rfl)
  have h1 := stepv db cu hcu
  have h2 := stepv _ _ h1
  refine ⟨?_, ?_, ?_⟩
  · rw [h1]
    rfl
  · rw [h2]
    rfl
  · unfold getProfilesMain
    cases findById db uid with
    | none => rfl
    | some c => rw [hlat, hlng]

/-- C8 counterexample: the src controller variant completes a successful
discovery request while leaving the store, and so the requester views
counter, untouched: the counter still reads 0 after the call, so the
claim that every invocation of findCandidates increments it by one is
false for this cited variant. -/
theorem discovery_views_cx :
    ((getProfilesMain manhattan pairDB 1 centerOnlyQ).fst).isOk = true
    ∧ (getProfilesMain manhattan pairDB 1 centerOnlyQ).snd = pairDB
    ∧ (findById (getProfilesMain manhattan pairDB 1 centerOnlyQ).snd 1).map UserDoc.views =
        some 0 :=
  ⟨rfl, rfl, rfl⟩

/-- Witness for discovery_increments_views: two calls of the counting
variant take the counter of requester 1 from 0 to 1 and then to 2, while
the src variant leaves the store unchanged. -/
theorem discovery_increments_views_witness :
    (findById (getProfilesAlt manhattan pairDB 1 centerOnlyQ).snd 1).map UserDoc.views = some 1
    ∧ (findById (getProfilesAlt manhattan (getProfilesAlt manhattan pairDB 1 centerOnlyQ).snd 1
        centerOnlyQ).snd 1).map UserDoc.views = some 2
    ∧ (getProfilesMain manhattan pairDB 1 centerOnlyQ).snd = pairDB :=
  discovery_increments_views manhattan pairDB 1 centerOnlyQ 0 0 (sampleUser 1) rfl rfl rfl

/-- C9 amended: the sequence returned by the boostedUntil-sorting
discovery variant is ordered by boostedUntil descending, whether or not a
boost is still active, with absent boostedUntil last, and distance does
not affect rank beyond the max-distance filter; the result remains a
permutation of the attribute-filtered candidate set, whose predicate
never reads boostedUntil, so boost affects ranking only and never
membership. -/
theorem discovery_order_boost_desc (dist : GeoDist) (db : DB) (uid : Id) (q : FilterQuery)
    (latv lngv : Int) (l : List UserDoc)
    (hlat : q.lat = some latv) (hlng : q.lng = some lngv)
    (h : (getProfilesAlt dist db uid q).fst = Except.ok l) :
    l.Pairwise (fun u v => optNatLe v.boostedUntil u.boostedUntil = true)
    ∧ l.Perm (db.users.filter (profileQueryPred dist uid (lngv, latv) q true true)) := by
  unfold getProfilesAlt at h
  rw [hlat, hlng] at h
  simp only [] at h
  cases hcu : findById db uid with
  | none => rw [hcu] at h; simp at h
  | some cu =>
    rw [hcu] at h
    simp only [Except.ok.injEq] at h
    subst h
    constructor
    · exact pairwise_sortBy boostDescLe boostDescLe_total boostDescLe_trans _
    · exact (perm_sortBy _ _).trans (perm_sortBy _ _)

/-- A candidate 1000 meters from the center with no boost. -/
def nearPlain : UserDoc := { sampleUser 2 with location := (1000, 0) }

/-- A candidate 2000 meters from the center whose boost lapsed at time 5. -/
def farExpiredBoost : UserDoc :=
  { sampleUser 3 with location := (2000, 0), boostedUntil := some 5 }

/-- The store for the ordering counterexample. -/
def boostDB : DB :=
  { users := [sampleUser 1, nearPlain, farExpiredBoost], likes := [], matchDocs := [],
    messages := [], confessions := [], safetyReports := [], events := [] }

/-- Modelled from the spec wording of the ordering claim only: a boost is
active when boosted-until lies strictly in the future. The code never
computes activity; this definition is used solely to state the claimed
ordering at the counterexample. -/
def specActiveBoost (u : UserDoc) (now : Nat) : Bool :=
  match u.boostedUntil with
  | some t => now < t
  | none => false

/-- C9 counterexample: at time 100 neither candidate has an active boost
(the boost of farExpiredBoost lapsed at 5) and nearPlain is strictly
nearer, so the claimed ordering (nearest-first, active boosts ranked
ahead) would put nearPlain first; the code returns farExpiredBoost first,
because sort by boostedUntil descending overrides the $near order and
ranks by the raw timestamp whether or not it has passed. -/
theorem discovery_order_cx :
    (getProfilesAlt manhattan boostDB 1 centerOnlyQ).fst =
      Except.ok [farExpiredBoost, nearPlain]
    ∧ manhattan nearPlain.location (0, 0) < manhattan farExpiredBoost.location (0, 0)
    ∧ specActiveBoost farExpiredBoost 100 = false
    ∧ specActiveBoost nearPlain 100 = false :=
  ⟨rfl, by decide, rfl, rfl⟩

/-- Witness for discovery_order_boost_desc on the counterexample store. -/
theorem discovery_order_boost_desc_witness :
    ([farExpiredBoost, nearPlain].Pairwise
      (fun u v => optNatLe v.boostedUntil u.boostedUntil = true))
    ∧ [farExpiredBoost, nearPlain].Perm (boostDB.users.filter
        (profileQueryPred manhattan 1 (0, 0) centerOnlyQ true true)) :=
  discovery_order_boost_desc manhattan boostDB 1 centerOnlyQ 0 0
    [farExpiredBoost, nearPlain] rfl rfl rfl

end LIF
